import Mathlib

/-!
Verification of the kudu-rs RPC core (`src/rpc/connection.rs`, `krpc/src/proxy.rs`)
against its natural-language specification.

The Rust code is shallowly embedded: byte buffers are `List Nat` (each element a
byte value), machine integers are `Nat`/`Int` with explicit `% 2^w` where wrap
matters, queues are insertion-ordered association lists, and the external
protobuf codec (an external collaborator of the core) appears as oracle function
parameters.  The `Rpc` descriptor, `QueueMap` and channel semantics are not
under `src/` (only their callers are) and are modelled from the spec where so
marked.
-/

namespace KuduRpc

/-! ## Bytes: big-endian u32 prefix (byteorder::BigEndian) -/

/-- The four big-endian bytes of `n` as a `u32` (`write_u32::<BigEndian>`);
wraps at `2^32` exactly as the Rust cast does. -/
def writeU32BE (n : Nat) : List Nat :=
  [n / 2 ^ 24 % 256, n / 2 ^ 16 % 256, n / 2 ^ 8 % 256, n % 256]

/-- Read a big-endian `u32` from the first four bytes of a buffer
(`BigEndian::read_u32`); returns 0 if fewer than four bytes are present
(callers guard the length first, as the Rust code does). -/
def readU32BE : List Nat → Nat
  | b0 :: b1 :: b2 :: b3 :: _ => ((b0 * 256 + b1) * 256 + b2) * 256 + b3
  | _ => 0

theorem writeU32BE_length (n : Nat) : (writeU32BE n).length = 4 := rfl

theorem readU32BE_writeU32BE (n : Nat) (rest : List Nat) (h : n < 2 ^ 32) :
    readU32BE (writeU32BE n ++ rest) = n := by
  simp only [writeU32BE, readU32BE, List.cons_append]
  omega

/-! ## Base-128 varints (protobuf::rt::ProtobufVarint) -/

/-- Standard base-128 varint encoding, least-significant 7-bit group first,
high bit set on every byte but the last. -/
def encodeVarint (n : Nat) : List Nat :=
  if h : n < 128 then [n]
  else (n % 128 + 128) :: encodeVarint (n / 128)
decreasing_by exact Nat.div_lt_self (by omega) (by omega)

/-- Number of bytes of the varint encoding of `n`
(`ProtobufVarint::len_varint`). -/
def lenVarint (n : Nat) : Nat :=
  if h : n < 128 then 1
  else 1 + lenVarint (n / 128)
decreasing_by exact Nat.div_lt_self (by omega) (by omega)

/-- Base-128 varint decoding: returns the value and the remaining bytes. -/
def decodeVarint : List Nat → Option (Nat × List Nat)
  | [] => none
  | b :: rest =>
    if b < 128 then some (b, rest)
    else
      match decodeVarint rest with
      | none => none
      | some (n, r) => some ((b - 128) + 128 * n, r)

theorem lenVarint_eq_length (n : Nat) : lenVarint n = (encodeVarint n).length := by
  induction n using Nat.strong_induction_on with
  | _ n ih =>
    unfold lenVarint encodeVarint
    by_cases h : n < 128
    · simp [h]
    · rw [dif_neg h, dif_neg h]
      simp [ih (n / 128) (Nat.div_lt_self (by omega) (by omega)), Nat.add_comm]

theorem decodeVarint_encodeVarint (n : Nat) :
    ∀ rest : List Nat, decodeVarint (encodeVarint n ++ rest) = some (n, rest) := by
  induction n using Nat.strong_induction_on with
  | _ n ih =>
    intro rest
    unfold encodeVarint
    by_cases h : n < 128
    · simp [h, decodeVarint]
    · rw [dif_neg h]
      simp only [List.cons_append, decodeVarint]
      rw [if_neg (by omega)]
      rw [show (encodeVarint (n / 128)).append rest = encodeVarint (n / 128) ++ rest from rfl]
      rw [ih (n / 128) (Nat.div_lt_self (by omega) (by omega)) rest]
      have hmod : n % 128 + 128 - 128 + 128 * (n / 128) = n := by omega
      simp only [Option.some.injEq, Prod.mk.injEq]
      refine ⟨?_, trivial⟩
      omega

/-! ## Message framing (`Connection::buffer_message`)

A protobuf `Message` is represented by its serialized bytes; `compute_size`
is its length and `write_length_delimited_to` prepends the varint of the
length — exactly what the codec collaborator guarantees. -/

/-- `write_length_delimited_to`: varint of the length, then the bytes. -/
def lengthDelimited (m : List Nat) : List Nat :=
  encodeVarint m.length ++ m

/-- The `len` computed by `buffer_message`:
`header_len + header_len.len_varint() + msg_len + msg_len.len_varint()`. -/
def frameLen (hdr msg : List Nat) : Nat :=
  hdr.length + lenVarint hdr.length + msg.length + lenVarint msg.length

/-- The bytes `buffer_message` appends to `write_buf`: a 4-byte big-endian
length prefix, the varint-delimited header, then the varint-delimited payload. -/
def bufferMessageBytes (hdr msg : List Nat) : List Nat :=
  writeU32BE (frameLen hdr msg) ++ lengthDelimited hdr ++ lengthDelimited msg

/-- Read one varint-delimited field: varint length `n`, then `n` bytes. -/
def decodeDelimited (l : List Nat) : Option (List Nat × List Nat) :=
  match decodeVarint l with
  | none => none
  | some (n, rest) =>
    if n ≤ rest.length then some (rest.take n, rest.drop n) else none

/-- Modelled from the spec: the framing round-trip decoder of §8 /
the read path of §4.1 — read the big-endian length `L`, enforce
`L ≤ max_message_length`, ensure `L` bytes are present, then read the
varint-delimited header and the varint-delimited body. -/
def decodeFrame (maxLen : Nat) (l : List Nat) : Option (List Nat × List Nat) :=
  if l.length < 4 then none
  else
    let msgLen := readU32BE l
    if msgLen > maxLen then none
    else if l.length - 4 < msgLen then none
    else
      match decodeDelimited (l.drop 4) with
      | none => none
      | some (hdr, r1) =>
        match decodeDelimited r1 with
        | none => none
        | some (body, _) => some (hdr, body)

theorem decodeDelimited_lengthDelimited (m rest : List Nat) :
    decodeDelimited (lengthDelimited m ++ rest) = some (m, rest) := by
  simp only [decodeDelimited, lengthDelimited, List.append_assoc,
    decodeVarint_encodeVarint]
  rw [if_pos (by simp)]
  simp

theorem decodeDelimited_lengthDelimited_nil (m : List Nat) :
    decodeDelimited (lengthDelimited m) = some (m, []) := by
  have h := decodeDelimited_lengthDelimited m []
  simpa using h

theorem lengthDelimited_length (m : List Nat) :
    (lengthDelimited m).length = lenVarint m.length + m.length := by
  simp [lengthDelimited, lenVarint_eq_length]

/-! ## Error taxonomy (`src/rpc.rs` `RpcErrorCode`, crate `Error`) -/

/-- The RPC error codes of `rpc.rs`; the `Fatal*` codes shut down the
connection. -/
inductive RpcErrorCode
  | ApplicationError
  | NoSuchMethod
  | NoSuchService
  | ServerTooBusy
  | InvalidRequest
  | FatalUnknown
  | FatalServerShuttingDown
  | FatalInvalidRpcHeader
  | FatalDeserializingRequest
  | FatalVersionMismatch
  | FatalUnauthorized
deriving DecidableEq

/-- Whether an error code is fatal to the connection (the `Fatal*` codes). -/
def RpcErrorCode.isFatal : RpcErrorCode → Bool
  | .ApplicationError | .NoSuchMethod | .NoSuchService
  | .ServerTooBusy | .InvalidRequest => false
  | _ => true

/-- `error::RpcError`: either a locally detected invalid RPC header or a
server-signalled `ErrorStatusPB`. -/
inductive RpcError
  | invalidRpcHeader (msg : String)
  | statusError (code : RpcErrorCode) (msg : String)
deriving DecidableEq

/-- `RpcError::is_fatal`: invalid headers are fatal, otherwise the code
decides. -/
def RpcError.isFatal : RpcError → Bool
  | .invalidRpcHeader _ => true
  | .statusError code _ => code.isFatal

/-- The crate-level `Error` enum as used by `connection.rs`. -/
inductive Error
  | IoError (msg : String)
  | NegotiationError (msg : String)
  | RpcErr (e : RpcError)
  | SerializationError (msg : String)
  | TimedOut
  | Cancelled
  | ConnectionError
  | Backoff
deriving DecidableEq

/-! ## Rpc descriptor and queues

Modelled from the spec: the `Rpc` struct and `QueueMap` live outside `src/`
(only `connection.rs` calls them); fields and operations follow §3 and §4.3
of the spec.  Time is a `Nat` instant; `deadline` is absolute. -/

/-- Modelled from the spec: one outstanding remote call (§3).  `request` and
`response` are the serialized payload and the deserialized-response slot as
byte lists; `cancelled` is the state of the cancellation signal at the
observation point. -/
structure Rpc where
  serviceName : String
  methodName : String
  deadline : Nat
  requiredFeatureFlags : List Nat
  request : List Nat
  response : List Nat
  failFast : Bool
  cancelled : Bool
deriving DecidableEq

/-- `Rpc::timed_out(now)`: the deadline has passed. -/
def Rpc.timedOut (r : Rpc) (now : Nat) : Bool :=
  decide (r.deadline ≤ now)

/-- Modelled from the spec: `QueueMap` lookup — first entry with the given
call ID, in insertion order (§4.3). -/
def qmLookup (id : Nat) : List (Nat × Rpc) → Option Rpc
  | [] => none
  | (i, r) :: t => if i = id then some r else qmLookup id t

/-- Modelled from the spec: `QueueMap`/`HashMap` removal of the entry with
the given call ID, preserving the order of the rest (§4.3). -/
def qmRemove (id : Nat) : List (Nat × Rpc) → List (Nat × Rpc)
  | [] => []
  | (i, r) :: t => if i = id then t else (i, r) :: qmRemove id t

/-! ## Protocol headers and connection state -/

/-- `rpc_header::RequestHeader`, with the fields the core populates. -/
structure RequestHeader where
  callId : Int
  serviceName : String
  methodName : String
  timeoutMillis : Nat
  requiredFeatureFlags : List Nat
deriving DecidableEq

/-- `rpc_header::ResponseHeader`, with the fields the core reads. -/
structure ResponseHeader where
  callId : Int
  isError : Bool
  sidecarOffsets : List Nat
deriving DecidableEq

/-- `ConnectionOptions` (connection.rs lines 31-60). -/
structure ConnectionOptions where
  nodelay : Bool
  rpcQueueLen : Nat
  backoffInitial : Nat
  backoffMax : Nat
  maxMessageLength : Nat
deriving DecidableEq

/-- `ConnectionOptions::default()`. -/
def ConnectionOptions.default : ConnectionOptions :=
  { nodelay := true
    rpcQueueLen := 256
    backoffInitial := 10
    backoffMax := 30000
    maxMessageLength := 5 * 1024 * 1024 }

/-- The queue/buffer/throttle state of a `Connection`.  The socket, timer and
reactor handle are reactor resources outside the embedding; `send_queue` is
the insertion-ordered `QueueMap`, `recv_queue` the call-ID map (modelled as an
insertion-ordered association list). -/
structure Conn where
  options : ConnectionOptions
  sendQueue : List (Nat × Rpc)
  recvQueue : List (Nat × Rpc)
  recvBuf : List Nat
  writeBuf : List Nat
  throttle : Nat
deriving DecidableEq

/-- Completion signals delivered to an `Rpc`'s handle (`Rpc::fail`,
`Rpc::complete`). -/
inductive Event
  | failed (callId : Nat) (e : Error)
  | completed (callId : Nat)
deriving DecidableEq

/-! ## `Connection::throttle` (connection.rs lines 253-255) -/

/-- `self.throttle = cmp::min(self.throttle, self.options.rpc_queue_len) / 2`. -/
def Conn.throttleOp (c : Conn) : Conn :=
  { c with throttle := min c.throttle c.options.rpcQueueLen / 2 }

/-! ## `Connection::reset` (connection.rs lines 349-377) -/

/-- The drain loop of `reset`: for each drained `(call_id, rpc)` in order —
cancelled ⇒ dropped silently; timed out ⇒ failed `TimedOut`; fail-fast ⇒
failed with (a clone of) the triggering error; otherwise retained for retry. -/
def resetDispatch (err : Error) (now : Nat) :
    List (Nat × Rpc) → List (Nat × Rpc) × List Event
  | [] => ([], [])
  | (cid, rpc) :: rest =>
    let tail := resetDispatch err now rest
    if rpc.cancelled then tail
    else if rpc.timedOut now then (tail.1, .failed cid .TimedOut :: tail.2)
    else if rpc.failFast then (tail.1, .failed cid err :: tail.2)
    else ((cid, rpc) :: tail.1, tail.2)

/-- `Connection::reset(error)`: clear both byte buffers, drain `recv_queue`
then `send_queue` through the dispatch loop, and reinsert the retained Rpcs
into `send_queue` under their original call IDs.  `recv_queue` is a
`HashMap` (connection.rs line 189) and `HashMap::drain` yields its entries
in an unspecified order, so the realized drain sequence of `recv_queue` is
the explicit parameter `recvDrain`; any permutation of the map's entries is
a legal outcome of the source.  `send_queue` is the insertion-ordered
`QueueMap` and drains in insertion order.  (The backoff timer and the
`State::Reset` transition hold reactor resources outside the embedding.) -/
def Conn.resetDrain (c : Conn) (recvDrain : List (Nat × Rpc)) (err : Error)
    (now : Nat) : Conn × List Event :=
  let drained := recvDrain ++ c.sendQueue
  let out := resetDispatch err now drained
  ({ c with recvBuf := [], writeBuf := [], recvQueue := [], sendQueue := out.1 },
   out.2)

/-! ## SASL negotiation messages (`kudu_pb::rpc_header::SaslMessagePB`) -/

/-- `SaslMessagePB_SaslState`. -/
inductive SaslState
  | UNKNOWN
  | SUCCESS
  | NEGOTIATE
  | INITIATE
  | CHALLENGE
  | RESPONSE
deriving DecidableEq

/-- `SaslMessagePB_SaslAuth`, with the field the core reads. -/
structure SaslAuth where
  mechanism : String
deriving DecidableEq

/-- `SaslMessagePB`, with the fields the core reads. -/
structure SaslMessagePB where
  state : SaslState
  token : List Nat
  auths : List SaslAuth
deriving DecidableEq

/-! ## `Connection::poll_read_header` (connection.rs lines 452-493)

The socket plus `recv_buf` appear as one byte list `buf`: `read_at_least`
moves available socket bytes into `recv_buf`, so the function sees exactly
the bytes that have arrived.  The protobuf decode of the `ResponseHeader`
(`CodedInputStream::merge_message`, the codec collaborator) is the oracle
`parseHdr`, returning the header and the number of bytes consumed, or `none`
on a decode failure. -/

/-- Result of one `poll_read_header` step: `NotReady`, a fatal error, or the
body length together with the decoded header and the remaining buffer. -/
inductive ReadHeaderResult
  | notReady
  | fatal (e : Error)
  | ready (bodyLen : Nat) (hdr : ResponseHeader) (rest : List Nat)
deriving DecidableEq

/-- The message of the over-long-frame error, as formatted at
connection.rs line 474. -/
def lengthErrorMsg (msgLen maxLen : Nat) : String :=
  "RPC response message is too long; length: " ++ toString msgLen ++
    ", max length: " ++ toString maxLen

/-- `poll_read_header`: ensure 4 bytes, read the big-endian length, enforce
`max_message_length`, ensure the body bytes, decode the `ResponseHeader`,
consume the prefix and header bytes, and return the remaining body length. -/
def pollReadHeader (parseHdr : List Nat → Option (ResponseHeader × Nat))
    (maxLen : Nat) (buf : List Nat) : ReadHeaderResult :=
  if buf.length < 4 then .notReady
  else
    let msgLen := readU32BE buf
    if msgLen > maxLen then
      .fatal (.RpcErr (.invalidRpcHeader (lengthErrorMsg msgLen maxLen)))
    else if buf.length - 4 < msgLen then .notReady
    else
      match parseHdr (buf.drop 4) with
      | none => .fatal (.SerializationError "ResponseHeader decode failed")
      | some (hdr, pos) => .ready (msgLen - pos) hdr (buf.drop (4 + pos))

/-! ## `Connection::poll_read_negotiation` (connection.rs lines 498-544) -/

/-- Result of `poll_read_negotiation`. -/
inductive NegReadResult
  | notReady
  | fatal (e : Error)
  | ready (msg : SaslMessagePB)
deriving DecidableEq

/-- `poll_read_negotiation`: read a header, then gate on the call ID — the
source compares against `33` — reject sidecars, require the body to be the
whole buffer, surface server errors, and decode the `SaslMessagePB` (oracles
`parseErr` and `parseSasl` are the codec collaborator; `parseSasl` returns
the message and the consumed byte count). -/
def pollReadNegotiation
    (parseHdr : List Nat → Option (ResponseHeader × Nat))
    (parseErr : List Nat → Option RpcError)
    (parseSasl : List Nat → Option (SaslMessagePB × Nat))
    (maxLen : Nat) (buf : List Nat) : NegReadResult :=
  match pollReadHeader parseHdr maxLen buf with
  | .notReady => .notReady
  | .fatal e => .fatal e
  | .ready bodyLen hdr rest =>
    if hdr.callId ≠ 33 then
      .fatal (.RpcErr (.invalidRpcHeader
        "negotiation RPC response header has illegal call id"))
    else if hdr.sidecarOffsets ≠ [] then
      .fatal (.RpcErr (.invalidRpcHeader
        "negotiation RPC response includes sidecars"))
    else if bodyLen ≠ rest.length then
      .fatal (.NegotiationError
        "detected multiple in-flight RPC responses during negotiation")
    else if hdr.isError then
      match parseErr rest with
      | none => .fatal (.SerializationError "ErrorStatusPB decode failed")
      | some e => .fatal (.RpcErr e)
    else
      match parseSasl rest with
      | none => .fatal (.SerializationError "SaslMessagePB decode failed")
      | some (msg, pos) =>
        if bodyLen ≠ pos then
          .fatal (.NegotiationError
            "decoded message length does not match the header length")
        else .ready msg

/-! ## The SASL dispatch of `Connection::poll_negotiating`
(connection.rs lines 294-310) -/

/-- What `poll_negotiating` does with one received `SaslMessagePB`. -/
inductive NegotiationStep
  | sendInitiate
  | connected
  | fatal (e : Error)
  | panicked (msg : String)
deriving DecidableEq

/-- The `match msg.get_state()` of `poll_negotiating`: `NEGOTIATE` with a
`PLAIN` auth buffers the SASL INITIATE and loops; `NEGOTIATE` without one is
a negotiation error; `SUCCESS` transitions to Connected; every other state
hits the source's `unreachable!` panic. -/
def saslDispatch (msg : SaslMessagePB) : NegotiationStep :=
  match msg.state with
  | .NEGOTIATE =>
    if msg.auths.any (fun a => a.mechanism = "PLAIN") then .sendInitiate
    else .fatal (.NegotiationError "SASL PLAIN authentication not available")
  | .SUCCESS => .connected
  | _ => .panicked "Unexpected SASL message"

/-! ## `Connection::poll_read_connected` (connection.rs lines 553-597)

The function runs after `poll_read_header`; `c.recvBuf` holds the remaining
buffer (the message body first), `hdr` the decoded header and `bodyLen` the
returned body length.  `parseErr` decodes an `ErrorStatusPB`, `mergeResp`
is `merge_message` of the body into an Rpc's response slot (both the codec
collaborator). -/

/-- The `get_call_id() as usize` cast: an `i32` sign-extended and
reinterpreted as a 64-bit `usize`. -/
def castUsize (i : Int) : Nat :=
  (i % (2 ^ 64 : Int)).toNat

theorem castUsize_ofNat (cid : Nat) (h : cid < 2 ^ 64) :
    castUsize (cid : Int) = cid := by
  unfold castUsize
  rw [Int.emod_eq_of_lt (by positivity) (by exact_mod_cast h)]
  exact Int.toNat_natCast cid

/-- Result of one `poll_read_connected` step, carrying the connection state
at return and the completion signals emitted. -/
inductive ConnReadResult
  | notReady
  | fatal (e : Error) (c : Conn) (evs : List Event)
  | panicked (msg : String) (c : Conn) (evs : List Event)
  | ready (c : Conn) (evs : List Event)
deriving DecidableEq

/-- The post-header part of `poll_read_connected`.  Error responses fail and
remove the matching Rpc (if still queued) and fatal codes tear the connection
down; non-error responses are merged into the matching Rpc's response slot —
a decode failure leaves the Rpc queued and returns the error, success removes
it, signals completion, and grows the throttle up to `rpc_queue_len`.
A non-empty sidecar offset list hits the source's `panic!`. -/
def pollReadConnectedBody (parseErr : List Nat → Option RpcError)
    (mergeResp : List Nat → List Nat → Option (List Nat))
    (c : Conn) (hdr : ResponseHeader) (bodyLen : Nat) : ConnReadResult :=
  let callId := castUsize hdr.callId
  let body := c.recvBuf.take bodyLen
  if hdr.isError then
    match parseErr body with
    | none => .fatal (.SerializationError "ErrorStatusPB decode failed") c []
    | some e =>
      match qmLookup callId c.recvQueue with
      | some _ =>
        let c1 : Conn := { c with recvQueue := qmRemove callId c.recvQueue }
        if e.isFatal then .fatal (.RpcErr e) c1 [.failed callId (.RpcErr e)]
        else .ready { c1 with recvBuf := c1.recvBuf.drop bodyLen }
          [.failed callId (.RpcErr e)]
      | none =>
        if e.isFatal then .fatal (.RpcErr e) c []
        else .ready { c with recvBuf := c.recvBuf.drop bodyLen } []
  else
    match qmLookup callId c.recvQueue with
    | none => .ready { c with recvBuf := c.recvBuf.drop bodyLen } []
    | some rpc =>
      match mergeResp rpc.response body with
      | none => .fatal (.SerializationError "response body decode failed") c []
      | some _ =>
        if hdr.sidecarOffsets ≠ [] then
          .panicked "sidecar decoding not implemented" c []
        else
          .ready
            { c with
              recvQueue := qmRemove callId c.recvQueue
              recvBuf := c.recvBuf.drop bodyLen
              throttle :=
                if c.throttle < c.options.rpcQueueLen then c.throttle + 1
                else c.throttle }
            [.completed callId]

/-! ## `Connection::poll_write_connected` (connection.rs lines 607-657)

`flushFn` is `poll_flush` seen through the socket: it maps the write buffer
to the buffer remaining after the socket accepted what it could, or to a
fatal error.  `encodeHdr` is the codec collaborator serializing the
`RequestHeader`. -/

/-- Result of one `poll_write_connected` step, carrying the connection state
at return and the completion signals emitted. -/
inductive WriteResult
  | notReady (c : Conn)
  | panicked (c : Conn)
  | fatal (e : Error) (c : Conn)
  | ready (c : Conn) (evs : List Event)
deriving DecidableEq

/-- `poll_write_connected`, translated line by line: the 8 KiB flush gate,
the throttle gate, then the source's double pop of `send_queue` — the head
is popped and discarded, a second pop is unwrapped and that Rpc is the one
checked for cancellation, timeout and call-ID overflow and otherwise framed
into `write_buf` and moved into `recv_queue`. -/
def pollWriteConnected (flushFn : List Nat → Except Error (List Nat))
    (encodeHdr : RequestHeader → List Nat)
    (c : Conn) (now : Nat) : WriteResult :=
  let step2 : Conn → WriteResult := fun c =>
    if c.recvQueue.length ≥ c.throttle then .notReady c
    else
      match c.sendQueue with
      | [] => .notReady c
      | _first :: tail =>
        match tail with
        | [] => .panicked { c with sendQueue := [] }
        | (callId, rpc) :: rest =>
          let c1 : Conn := { c with sendQueue := rest }
          if rpc.cancelled then .ready c1 [.failed callId .Cancelled]
          else if rpc.timedOut now then .ready c1 [.failed callId .TimedOut]
          else if callId > 2 ^ 31 - 1 then .fatal .ConnectionError c1
          else
            let hdr : RequestHeader :=
              { callId := Int.ofNat callId
                serviceName := rpc.serviceName
                methodName := rpc.methodName
                timeoutMillis := rpc.deadline - now
                requiredFeatureFlags := rpc.requiredFeatureFlags }
            .ready
              { c1 with
                writeBuf := c1.writeBuf ++ bufferMessageBytes (encodeHdr hdr) rpc.request
                recvQueue := c1.recvQueue ++ [(callId, rpc)] }
              []
  if c.writeBuf.length > 8 * 1024 then
    match flushFn c.writeBuf with
    | .error e => .fatal e c
    | .ok buf1 =>
      if buf1.length > 8 * 1024 then .notReady { c with writeBuf := buf1 }
      else step2 { c with writeBuf := buf1 }
  else step2 c

/-! ## `Proxy` (krpc/src/proxy.rs lines 46-96)

Modelled from the spec and the `futures` channel contract (§4.2): the
bounded `mpsc` channel has `poll_ready` return Ready exactly when a slot is
free, and `start_send` return `NotReady(rpc)` instead of queueing when no
slot is free.  The deciding code — what `Proxy::send` does with that
result — is `proxy.rs` itself. -/

/-- The sender half of the bounded `mpsc::channel(max_rpcs_in_flight)`;
queued items are opaque request tokens. -/
structure ProxyChan where
  capacity : Nat
  queued : List Nat
deriving DecidableEq

/-- `futures::sync::mpsc::Sender::start_send` on a bounded channel. -/
def startSend (ch : ProxyChan) (r : Nat) : ProxyChan × Option Nat :=
  if ch.queued.length < ch.capacity then
    ({ ch with queued := ch.queued ++ [r] }, none)
  else (ch, some r)

/-- `Proxy::poll_ready`: Ready exactly when the channel has a free slot. -/
def proxyPollReady (ch : ProxyChan) : Bool :=
  decide (ch.queued.length < ch.capacity)

/-- Outcome of `Proxy::send`: either the Rpc was pushed onto the channel and
a completion handle returned, or the call panicked. -/
inductive SendOutcome
  | sent (ch : ProxyChan)
  | panicked (msg : String)
deriving DecidableEq

/-- `Proxy::send`: construct the Rpc, `start_send` it, and panic with
"Proxy not ready" if the sink reports `NotReady`. -/
def proxySend (ch : ProxyChan) (req : Nat) : SendOutcome :=
  match startSend ch req with
  | (ch1, none) => .sent ch1
  | (_, some _) => .panicked "Proxy not ready"

/-! ## Concrete fixtures used by the closed theorems and witnesses -/

/-- A plain queued Rpc: not cancelled, deadline 10, not fail-fast. -/
def rpcA : Rpc :=
  { serviceName := "s"
    methodName := "m"
    deadline := 10
    requiredFeatureFlags := []
    request := []
    response := []
    failFast := false
    cancelled := false }

/-- A second plain queued Rpc. -/
def rpcB : Rpc :=
  { rpcA with methodName := "m2" }

/-- A Connected-state connection with one Rpc queued for sending. -/
def connOne : Conn :=
  { options := ConnectionOptions.default
    sendQueue := [(0, rpcA)]
    recvQueue := []
    recvBuf := []
    writeBuf := []
    throttle := 256 }

/-- A Connected-state connection with two Rpcs queued for sending. -/
def connTwo : Conn :=
  { connOne with sendQueue := [(0, rpcA), (1, rpcB)] }

/-- A connection whose throttle is at the lower end of its `[1, rpc_queue_len]`
range. -/
def throttleOneConn : Conn :=
  { connOne with sendQueue := [], throttle := 1 }

/-- A connection carrying two in-flight Rpcs in `recv_queue`, inserted at
call IDs 0 then 1; both are retained on reset (not cancelled, not past their
deadline at instant 0, not fail-fast). -/
def c3conn : Conn :=
  { options := ConnectionOptions.default
    sendQueue := []
    recvQueue := [(0, rpcA), (1, rpcB)]
    recvBuf := [9]
    writeBuf := [8]
    throttle := 256 }

/-! ## Claim theorems -/

/-- Characterization of the `reset` drain loop: the retained Rpcs are exactly
the drained entries that are neither cancelled, timed out nor fail-fast, in
order, and the completion signals are exactly the dispatch policy applied to
the drained entries in order. -/
theorem encodeVarint_small (n : Nat) (h : n < 128) : encodeVarint n = [n] := by
  rw [encodeVarint]
  simp [h]

theorem lenVarint_small (n : Nat) (h : n < 128) : lenVarint n = 1 := by
  rw [lenVarint]
  simp [h]

theorem bufferMessageBytes_nil_nil :
    bufferMessageBytes [] [] = [0, 0, 0, 2, 0, 0] := by
  simp [bufferMessageBytes, frameLen, lengthDelimited, writeU32BE,
    encodeVarint_small, lenVarint_small]

theorem resetDispatch_eq (err : Error) (now : Nat) (l : List (Nat × Rpc)) :
    resetDispatch err now l =
      (l.filter (fun p => !p.2.cancelled && !p.2.timedOut now && !p.2.failFast),
       l.filterMap (fun p =>
         if p.2.cancelled then none
         else if p.2.timedOut now then some (Event.failed p.1 Error.TimedOut)
         else if p.2.failFast then some (Event.failed p.1 err)
         else none)) := by
  induction l with
  | nil => rfl
  | cons hd tl ih =>
    obtain ⟨cid, rpc⟩ := hd
    simp only [resetDispatch, ih, List.filter, List.filterMap]
    by_cases hc : rpc.cancelled <;> by_cases ht : rpc.timedOut now <;>
      by_cases hf : rpc.failFast <;> simp [hc, ht, hf]

/-- C1: the write path in the Connected state does NOT pop exactly one Rpc
and process it — the source pops `send_queue` twice.  With a single queued
Rpc the second pop's `unwrap()` panics; with two queued Rpcs the head
`(0, rpcA)` is removed but never processed: it appears in neither queue of
the result, no frame is written for it, and no completion signal is emitted
for call ID 0. -/
theorem claim1_double_pop :
    pollWriteConnected Except.ok (fun _ => []) connOne 0 =
      .panicked { connOne with sendQueue := [] } ∧
    pollWriteConnected Except.ok (fun _ => []) connTwo 0 =
      .ready
        { connTwo with
          sendQueue := []
          writeBuf := [0, 0, 0, 2, 0, 0]
          recvQueue := [(1, rpcB)] }
        [] := by
  constructor
  · rfl
  · simp only [pollWriteConnected, connTwo, connOne, rpcA, rpcB]
    norm_num [Rpc.timedOut, bufferMessageBytes_nil_nil]

/-- C2: during negotiation the source accepts a SASL response header exactly
when `call_id = 33` — it returns `InvalidRpcHeader` for `call_id = -33`, the
value the spec requires and the client itself sends, and accepts `33`. -/
theorem claim2_negotiation_call_id :
    pollReadNegotiation (fun _ => some ({ callId := -33, isError := false, sidecarOffsets := [] }, 0))
        (fun _ => none) (fun _ => some ({ state := .SUCCESS, token := [], auths := [] }, 2))
        100 [0, 0, 0, 2, 7, 7] =
      .fatal (.RpcErr (.invalidRpcHeader
        "negotiation RPC response header has illegal call id")) ∧
    pollReadNegotiation (fun _ => some ({ callId := 33, isError := false, sidecarOffsets := [] }, 0))
        (fun _ => none) (fun _ => some ({ state := .SUCCESS, token := [], auths := [] }, 2))
        100 [0, 0, 0, 2, 7, 7] =
      .ready { state := .SUCCESS, token := [], auths := [] } := by
  constructor <;> rfl

/-- C3: the insertion-order clauses of the claim fail on the code —
`recv_queue` is a `HashMap` and `reset` drains it in an unspecified order
(connection.rs lines 189 and 361).  The reversed sequence below is a
permutation of the two-entry `recv_queue`, hence a legal `HashMap::drain`
outcome, and under it the two retained Rpcs are dispatched and reinserted
into `send_queue` in the reverse of their insertion order, unlike under the
insertion-order drain; the buffers and `recv_queue` do come out empty.  So
insertion-order dispatch and reinsertion are not guaranteed by the program. -/
theorem claim3_reset_recv_drain_order :
    List.Perm [(1, rpcB), (0, rpcA)] c3conn.recvQueue ∧
    (c3conn.resetDrain c3conn.recvQueue .ConnectionError 0).1.sendQueue =
      [(0, rpcA), (1, rpcB)] ∧
    (c3conn.resetDrain [(1, rpcB), (0, rpcA)] .ConnectionError 0).1.sendQueue =
      [(1, rpcB), (0, rpcA)] ∧
    (c3conn.resetDrain [(1, rpcB), (0, rpcA)] .ConnectionError 0).1.sendQueue ≠
      c3conn.recvQueue ++ c3conn.sendQueue ∧
    (c3conn.resetDrain [(1, rpcB), (0, rpcA)] .ConnectionError 0).1.recvBuf = [] ∧
    (c3conn.resetDrain [(1, rpcB), (0, rpcA)] .ConnectionError 0).1.writeBuf = [] ∧
    (c3conn.resetDrain [(1, rpcB), (0, rpcA)] .ConnectionError 0).1.recvQueue = [] := by
  refine ⟨?_, rfl, rfl, by decide, rfl, rfl, rfl⟩
  exact List.Perm.swap (0, rpcA) (1, rpcB) []

/-- C4: the claim's floor fails on the code — starting from a throttle inside
`[1, rpc_queue_len]` (here 1, with `rpc_queue_len = 256`), `throttle()` sets
the throttle to `min(1, 256) / 2 = 0`, which is not at least 1. -/
theorem claim4_throttle_no_floor :
    1 ≤ throttleOneConn.throttle ∧
    throttleOneConn.throttle ≤ throttleOneConn.options.rpcQueueLen ∧
    (Conn.throttleOp throttleOneConn).throttle = 0 := by
  refine ⟨by decide, by decide, rfl⟩

/-- C5: in `poll_read_connected`, for a non-error response whose call ID
matches a queued Rpc (and with the empty sidecar list): a body-decode failure
returns the error with `recv_queue` untouched, and a successful decode
removes the Rpc, signals its completion, and increments the throttle exactly
when it is below `rpc_queue_len`. -/
theorem claim5_read_decode_policy
    (parseErr : List Nat → Option RpcError)
    (mergeResp : List Nat → List Nat → Option (List Nat))
    (c : Conn) (hdr : ResponseHeader) (bodyLen : Nat) (cid : Nat) (rpc : Rpc)
    (hid : hdr.callId = (cid : Int)) (hcid : cid < 2 ^ 64)
    (herr : hdr.isError = false)
    (hsc : hdr.sidecarOffsets = [])
    (hlk : qmLookup cid c.recvQueue = some rpc) :
    (mergeResp rpc.response (c.recvBuf.take bodyLen) = none →
      pollReadConnectedBody parseErr mergeResp c hdr bodyLen =
        .fatal (.SerializationError "response body decode failed") c []) ∧
    (∀ merged, mergeResp rpc.response (c.recvBuf.take bodyLen) = some merged →
      pollReadConnectedBody parseErr mergeResp c hdr bodyLen =
        .ready
          { c with
            recvQueue := qmRemove cid c.recvQueue
            recvBuf := c.recvBuf.drop bodyLen
            throttle :=
              if c.throttle < c.options.rpcQueueLen then c.throttle + 1
              else c.throttle }
          [.completed cid]) := by
  have hcast : castUsize hdr.callId = cid := by
    rw [hid]; exact castUsize_ofNat cid hcid
  constructor
  · intro hm
    simp [pollReadConnectedBody, hcast, herr, hlk, hm]
  · intro merged hm
    simp [pollReadConnectedBody, hcast, herr, hlk, hm, hsc]

/-- A connection with one in-flight Rpc awaiting its response, used as the
witness input for C5. -/
def c5conn : Conn :=
  { options := ConnectionOptions.default
    sendQueue := []
    recvQueue := [(7, rpcA)]
    recvBuf := [1, 2, 3]
    writeBuf := []
    throttle := 10 }

/-- The response header matching the C5 witness connection. -/
def c5hdr : ResponseHeader :=
  { callId := 7, isError := false, sidecarOffsets := [] }

theorem claim5_read_decode_policy_witness :
    (c5hdr.callId = ((7 : Nat) : Int) ∧ (7 : Nat) < 2 ^ 64 ∧
      c5hdr.isError = false ∧ c5hdr.sidecarOffsets = [] ∧
      qmLookup 7 c5conn.recvQueue = some rpcA) ∧
    ((fun (_ : List Nat) (_ : List Nat) => some ([] : List Nat))
        rpcA.response (c5conn.recvBuf.take 3) = some [] →
      pollReadConnectedBody (fun _ => none)
          (fun _ _ => some []) c5conn c5hdr 3 =
        .ready
          { c5conn with
            recvQueue := qmRemove 7 c5conn.recvQueue
            recvBuf := c5conn.recvBuf.drop 3
            throttle :=
              if c5conn.throttle < c5conn.options.rpcQueueLen then
                c5conn.throttle + 1
              else c5conn.throttle }
          [.completed 7]) :=
  ⟨⟨rfl, by norm_num, rfl, rfl, rfl⟩,
   (claim5_read_decode_policy (fun _ => none) (fun _ _ => some [])
      c5conn c5hdr 3 7 rpcA rfl (by norm_num) rfl rfl rfl).2 []⟩

/-- C6: once at least four bytes of an incoming frame are available,
`poll_read_header` returns the fatal over-length `InvalidRpcHeader` error
exactly when the big-endian length prefix exceeds `max_message_length`; for a
prefix within the limit, no `InvalidRpcHeader` error is ever produced. -/
theorem claim6_length_gate
    (parseHdr : List Nat → Option (ResponseHeader × Nat))
    (maxLen : Nat) (buf : List Nat) (h4 : 4 ≤ buf.length) :
    (maxLen < readU32BE buf →
      pollReadHeader parseHdr maxLen buf =
        .fatal (.RpcErr (.invalidRpcHeader
          (lengthErrorMsg (readU32BE buf) maxLen)))) ∧
    (readU32BE buf ≤ maxLen →
      ∀ s, pollReadHeader parseHdr maxLen buf ≠
        .fatal (.RpcErr (.invalidRpcHeader s))) := by
  have h1 : ¬ buf.length < 4 := by omega
  constructor
  · intro hgt
    simp [pollReadHeader, h1, hgt]
  · intro hle s
    have h2 : ¬ maxLen < readU32BE buf := by omega
    simp only [pollReadHeader, h1, if_false, gt_iff_lt, h2]
    split
    · simp
    · split <;> simp

theorem claim6_length_gate_witness :
    (4 ≤ [0, 0, 1, 0].length ∧ 255 < readU32BE [0, 0, 1, 0] ∧
      pollReadHeader (fun _ => none) 255 [0, 0, 1, 0] =
        .fatal (.RpcErr (.invalidRpcHeader
          (lengthErrorMsg (readU32BE [0, 0, 1, 0]) 255)))) ∧
    (4 ≤ [0, 0, 0, 9].length ∧ readU32BE [0, 0, 0, 9] ≤ 255 ∧
      ∀ s, pollReadHeader (fun _ => none) 255 [0, 0, 0, 9] ≠
        .fatal (.RpcErr (.invalidRpcHeader s))) :=
  ⟨⟨by decide, by decide,
    (claim6_length_gate (fun _ => none) 255 [0, 0, 1, 0] (by decide)).1 (by decide)⟩,
   ⟨by decide, by decide,
    (claim6_length_gate (fun _ => none) 255 [0, 0, 0, 9] (by decide)).2 (by decide)⟩⟩

/-- C7: when the Rpc taken from `send_queue` for transmission (the source's
second pop) is neither cancelled nor past its deadline and its call ID
exceeds `2^31 - 1`, `poll_write_connected` returns `ConnectionError`, and
neither frames the Rpc into `write_buf` nor inserts it into `recv_queue`. -/
theorem claim7_call_id_overflow
    (flushFn : List Nat → Except Error (List Nat))
    (encodeHdr : RequestHeader → List Nat)
    (c : Conn) (now : Nat) (first : Nat × Rpc) (callId : Nat) (rpc : Rpc)
    (rest : List (Nat × Rpc))
    (hq : c.sendQueue = first :: (callId, rpc) :: rest)
    (hwb : c.writeBuf.length ≤ 8 * 1024)
    (hth : c.recvQueue.length < c.throttle)
    (hcan : rpc.cancelled = false)
    (htime : rpc.timedOut now = false)
    (hbig : 2 ^ 31 - 1 < callId) :
    ∃ c1, pollWriteConnected flushFn encodeHdr c now = .fatal .ConnectionError c1 ∧
      c1.writeBuf = c.writeBuf ∧ c1.recvQueue = c.recvQueue := by
  refine ⟨{ c with sendQueue := rest }, ?_, rfl, rfl⟩
  have h1 : ¬ c.writeBuf.length > 8 * 1024 := by omega
  have h2 : ¬ c.recvQueue.length ≥ c.throttle := by omega
  have hbig2 : 2147483647 < callId := by
    have hpow : (2 : Nat) ^ 31 - 1 = 2147483647 := by norm_num
    rwa [hpow] at hbig
  simp [pollWriteConnected, h1, h2, hq, hcan, htime, hbig, hbig2]

/-- The witness connection for C7: the Rpc reached by the second pop carries
the overflowing call ID `2^31`. -/
def c7conn : Conn :=
  { connOne with sendQueue := [(0, rpcA), (2 ^ 31, rpcB)] }

theorem claim7_call_id_overflow_witness :
    (c7conn.sendQueue = (0, rpcA) :: (2 ^ 31, rpcB) :: [] ∧
      c7conn.writeBuf.length ≤ 8 * 1024 ∧
      c7conn.recvQueue.length < c7conn.throttle ∧
      rpcB.cancelled = false ∧ rpcB.timedOut 0 = false ∧
      2 ^ 31 - 1 < 2 ^ 31) ∧
    (∃ c1, pollWriteConnected Except.ok (fun _ => []) c7conn 0 =
        .fatal .ConnectionError c1 ∧
      c1.writeBuf = c7conn.writeBuf ∧ c1.recvQueue = c7conn.recvQueue) :=
  ⟨⟨rfl, by decide, by decide, rfl, by decide, by norm_num⟩,
   claim7_call_id_overflow Except.ok (fun _ => []) c7conn 0 (0, rpcA)
     (2 ^ 31) rpcB [] rfl (by decide) (by decide) rfl (by decide) (by norm_num)⟩

/-- C8: the claim fails on the code — when the server's SASL state is neither
NEGOTIATE nor SUCCESS, `poll_negotiating` does not return a fatal protocol
error value: its `match` falls into `unreachable!` and panics (shown here at
states CHALLENGE and INITIATE). -/
theorem claim8_sasl_unexpected_state :
    saslDispatch { state := .CHALLENGE, token := [], auths := [] } =
      .panicked "Unexpected SASL message" ∧
    saslDispatch { state := .INITIATE, token := [], auths := [] } =
      .panicked "Unexpected SASL message" :=
  ⟨rfl, rfl⟩

/-- C9: `buffer_message` frames a header and payload behind a 4-byte
big-endian prefix whose value is exactly the number of bytes appended after
it, and decoding the frame (length gate included) recovers the original
header and body — for frames within `max_message_length` and within the
`u32` domain of the length prefix. -/
theorem claim9_framing_roundtrip (hdr body : List Nat) (maxLen : Nat)
    (hbody : body.length ≤ maxLen)
    (hframe : frameLen hdr body ≤ maxLen)
    (h32 : frameLen hdr body < 2 ^ 32) :
    readU32BE (bufferMessageBytes hdr body) =
      ((bufferMessageBytes hdr body).drop 4).length ∧
    decodeFrame maxLen (bufferMessageBytes hdr body) = some (hdr, body) := by
  have hread : readU32BE (bufferMessageBytes hdr body) = frameLen hdr body := by
    unfold bufferMessageBytes
    rw [List.append_assoc]
    exact readU32BE_writeU32BE _ _ h32
  have hdrop : (bufferMessageBytes hdr body).drop 4 =
      lengthDelimited hdr ++ lengthDelimited body := by
    unfold bufferMessageBytes
    rw [List.append_assoc,
      show (4 : Nat) = (writeU32BE (frameLen hdr body)).length from rfl,
      List.drop_left]
  have hrest : (lengthDelimited hdr ++ lengthDelimited body).length =
      frameLen hdr body := by
    simp only [List.length_append, lengthDelimited_length, frameLen]
    omega
  have hlen : (bufferMessageBytes hdr body).length = 4 + frameLen hdr body := by
    unfold bufferMessageBytes
    rw [List.append_assoc, List.length_append, writeU32BE_length, hrest]
  refine ⟨by rw [hread, hdrop, hrest], ?_⟩
  unfold decodeFrame
  rw [if_neg (by omega), hread]
  rw [if_neg (by omega), if_neg (by omega)]
  rw [hdrop]
  simp only [decodeDelimited_lengthDelimited, decodeDelimited_lengthDelimited_nil]

theorem claim9_framing_roundtrip_witness :
    ([2, 3].length ≤ 100 ∧ frameLen [1] [2, 3] ≤ 100 ∧
      frameLen [1] [2, 3] < 2 ^ 32) ∧
    (readU32BE (bufferMessageBytes [1] [2, 3]) =
      ((bufferMessageBytes [1] [2, 3]).drop 4).length ∧
    decodeFrame 100 (bufferMessageBytes [1] [2, 3]) = some ([1], [2, 3])) :=
  ⟨⟨by norm_num, by norm_num [frameLen, lenVarint_small],
    by norm_num [frameLen, lenVarint_small]⟩,
   claim9_framing_roundtrip [1] [2, 3] 100 (by norm_num)
     (by norm_num [frameLen, lenVarint_small])
     (by norm_num [frameLen, lenVarint_small])⟩

/-- C10: calling `Proxy::send` when the bounded channel has no free slot
(no prior Ready from `poll_ready`) panics with "Proxy not ready" — it does
not return an error value and does not queue the Rpc. -/
theorem claim10_send_without_ready (ch : ProxyChan) (req : Nat)
    (h : proxyPollReady ch = false) :
    proxySend ch req = .panicked "Proxy not ready" := by
  have hlen : ¬ ch.queued.length < ch.capacity := by
    simpa [proxyPollReady] using h
  simp [proxySend, startSend, hlen]

theorem claim10_send_without_ready_witness :
    proxyPollReady ⟨2, [4, 5]⟩ = false ∧
    proxySend ⟨2, [4, 5]⟩ 6 = .panicked "Proxy not ready" :=
  ⟨rfl, claim10_send_without_ready ⟨2, [4, 5]⟩ 6 rfl⟩

end KuduRpc
